import Mathlib

/-!
Verification of the Item CRUD service (src/app/main.py, src/app/observability.py,
src/app/schemas.py). The HTTP handlers, startup retry loop, request middleware
and logging setup are embedded shallowly below; the relational store behind
database.py and models.py (absent from src) is modelled from the spec where
noted.
-/

namespace App

/-- Persisted Item entity: integer id assigned by the store, plus the two
required string fields declared by the schema layer (schemas.Item). -/
structure Item where
  id : Int
  name : String
  description : String
deriving Repr, DecidableEq

/-- Validated payload of a create request (schemas.ItemCreate: required
string fields name and description, inherited from ItemBase). -/
structure ItemCreate where
  name : String
  description : String
deriving Repr, DecidableEq

/-- Modelled from the spec: database.py and models.py are not under src.
The relational store holds the persisted Items; ids are system-assigned,
unique and immutable, realised here by a monotone next-id counter, so every
already-persisted id lies strictly below nextId. -/
structure DB where
  items : List Item
  nextId : Int
deriving Repr, DecidableEq

/-- Store well-formedness: every persisted id is below the next id the store
would assign. -/
def DB.wf (db : DB) : Prop := ∀ it ∈ db.items, it.id < db.nextId

/-- Modelled from the spec: a committed insert assigns the next id and
persists the complete record (name and description always present). -/
def DB.insert (db : DB) (payload : ItemCreate) : Item × DB :=
  let newItem : Item := ⟨db.nextId, payload.name, payload.description⟩
  (newItem, ⟨db.items ++ [newItem], db.nextId + 1⟩)

/-- Lookup by id, embedding db.query(models.Item).filter(Item.id == item_id).first():
the first persisted Item whose id equals item_id, if any. -/
def DB.find (db : DB) (item_id : Int) : Option Item :=
  db.items.find? (fun it => it.id == item_id)

/-- Responses the service produces: a 200 Item body, the 422 body built by
validation_exception_handler with its field-error detail list, or an
HTTPException carrying a status code and a detail string. -/
inductive Response where
  | ok (item : Item)
  | validationError (detail : List String)
  | httpError (status : Nat) (detail : String)
deriving Repr, DecidableEq

/-- HTTP status code of a response. -/
def Response.statusCode : Response → Nat
  | .ok _ => 200
  | .validationError _ => 422
  | .httpError s _ => s

/-- create_item (src/app/main.py lines 49-65). persistFails records whether the
persistence block (db.add, db.commit, db.refresh) raises. On success the
created Item, refreshed with its assigned id, is returned. On failure the
except-branch calls db.rollback(), restoring the store to its pre-request
state, and raises HTTPException(500, "Failed to create item"). The pair is
the response together with the store after the request. -/
def create_item (item : ItemCreate) (db : DB) (persistFails : Bool) : Response × DB :=
  if persistFails then
    (.httpError 500 "Failed to create item", db)
  else
    let r := db.insert item
    (.ok r.1, r.2)

/-- read_item (src/app/main.py lines 67-82). queryFails records whether the
database query raises. A raising query hits the generic except-branch,
giving HTTPException(500, ...); a query returning no row gives
HTTPException(404, "Item not found"), re-raised unchanged by the
HTTPException branch; a found row is returned as the 200 body. -/
def read_item (item_id : Int) (db : DB) (queryFails : Bool) : Response :=
  if queryFails then .httpError 500 "Failed to retrieve item"
  else
    match db.find item_id with
    | none => .httpError 404 "Item not found"
    | some item => .ok item

/-- Raw JSON body of a create request before validation: each declared field
is present or missing. -/
structure RawBody where
  name : Option String
  description : Option String
deriving Repr, DecidableEq

/-- Field-level violations pydantic reports for ItemCreate: one entry per
missing required field. -/
def fieldErrors (body : RawBody) : List String :=
  (if body.name.isNone then ["name: field required"] else []) ++
  (if body.description.isNone then ["description: field required"] else [])

/-- Validation of the request body against schemas.ItemCreate: both required
fields present yields the validated payload, otherwise the list of
field-level violations. -/
def validateItemCreate (body : RawBody) : Except (List String) ItemCreate :=
  match body.name, body.description with
  | some n, some d => .ok ⟨n, d⟩
  | _, _ => .error (fieldErrors body)

/-- The POST /items/ pipeline: the framework validates the body before
invoking the handler; on validation failure validation_exception_handler
(src/app/main.py lines 41-47) answers 422 with the error detail list and
create_item is never invoked, so the store is untouched. -/
def post_items (body : RawBody) (db : DB) (persistFails : Bool) : Response × DB :=
  match validateItemCreate body with
  | .error errs => (.validationError errs, db)
  | .ok item => create_item item db persistFails

/-- Outcome of one database.create_tables() call: success, an
OperationalError (database unreachable), or any other exception. -/
inductive AttemptOutcome where
  | success
  | operationalError
  | otherError
deriving Repr, DecidableEq

/-- Terminal state of the startup sequencer: Ready, or Failed propagating an
OperationalError after exhausting retries, or Failed propagating some other
exception. -/
inductive StartupState where
  | Ready
  | FailedOperational
  | FailedOther
deriving Repr, DecidableEq

/-- Observable trace of startup_event: number of create_tables attempts made,
number of time.sleep(retry_delay) calls made, and the terminal state. -/
structure StartupTrace where
  attempts : Nat
  sleeps : Nat
  state : StartupState
deriving Repr, DecidableEq

/-- max_retries (src/app/main.py line 25). -/
def max_retries : Nat := 5

/-- retry_delay in seconds (src/app/main.py line 26). -/
def retry_delay : Nat := 5

/-- Body of the for-loop of startup_event (src/app/main.py lines 27-38).
fuel is the number of loop iterations remaining, i the current loop index;
outcome i is what the i-th create_tables() call does. success breaks out of
the loop (Ready); a non-OperationalError exception is not caught and
propagates at once; an OperationalError sleeps and retries while
i < max_retries - 1, and re-raises on the last iteration. -/
def startupGo (outcome : Nat → AttemptOutcome) : Nat → Nat → Nat → Nat → StartupTrace
  | 0, _, attempts, sleeps => ⟨attempts, sleeps, .Ready⟩
  | fuel + 1, i, attempts, sleeps =>
    match outcome i with
    | .success => ⟨attempts + 1, sleeps, .Ready⟩
    | .otherError => ⟨attempts + 1, sleeps, .FailedOther⟩
    | .operationalError =>
      if i < max_retries - 1 then
        startupGo outcome fuel (i + 1) (attempts + 1) (sleeps + 1)
      else
        ⟨attempts + 1, sleeps, .FailedOperational⟩

/-- startup_event (src/app/main.py lines 23-38): run the retry loop from
index 0 with max_retries iterations available. -/
def startup_event (outcome : Nat → AttemptOutcome) : StartupTrace :=
  startupGo outcome max_retries 0 0 0

/-- Prometheus metric state touched by the middleware: the
http_requests_total counter, the http_request_duration_seconds histogram
observations, and the in_progress_requests gauge. -/
structure Metrics where
  requestCount : Nat
  latency : List Nat
  inProgress : Int
deriving Repr, DecidableEq

/-- What the downstream of the middleware does: call_next returns a response
with a status code, or raises. -/
inductive CallNextResult where
  | response (statusCode : Nat)
  | raises
deriving Repr, DecidableEq

/-- log_requests middleware (src/app/observability.py lines 108-136).
IN_PROGRESS.inc() runs before awaiting call_next; the counter increment,
histogram observation, gauge decrement and log line run only after call_next
returns. There is no try/finally, so when call_next raises the function
aborts right after the await and none of the later updates run; the second
component is the status code of the returned response, none when the
exception escapes. -/
def log_requests (m : Metrics) (callNext : CallNextResult) (duration : Nat) :
    Metrics × Option Nat :=
  let m1 : Metrics := { m with inProgress := m.inProgress + 1 }
  match callNext with
  | .raises => (m1, none)
  | .response status =>
    let m2 : Metrics := { m1 with requestCount := m1.requestCount + 1 }
    let m3 : Metrics := { m2 with latency := m2.latency ++ [duration] }
    let m4 : Metrics := { m3 with inProgress := m3.inProgress - 1 }
    (m4, some status)

/-- Events in the lifetime of the per-request database session. -/
inductive SessionEvent where
  | opened
  | handlerSucceeded
  | handlerRaised
  | closed
deriving Repr, DecidableEq

/-- Whether the request handler consuming the session returns or raises. -/
inductive HandlerOutcome where
  | success
  | failure
deriving Repr, DecidableEq

/-- get_db (src/app/main.py lines 16-21): SessionLocal() opens the session,
the handler runs on the yielded session inside the try, and the finally
clause closes the session on both the return path and the raise path. The
result is the ordered event trace of the session. -/
def get_db (outcome : HandlerOutcome) : List SessionEvent :=
  [SessionEvent.opened] ++
  (match outcome with
   | .success => [SessionEvent.handlerSucceeded]
   | .failure => [SessionEvent.handlerRaised]) ++
  [SessionEvent.closed]

/-- Numeric values of the level attributes of the Python logging module:
getattr(logging, s) for the level names, none when s is not a level name.
Case matters, as it does for getattr; setup_logging upcases its input
first. Module attributes that are not level settings are left out: passing
one to setLevel raises rather than configuring a level. -/
def levelValue : String → Option Nat
  | "CRITICAL" => some 50
  | "FATAL" => some 50
  | "ERROR" => some 40
  | "WARNING" => some 30
  | "WARN" => some 30
  | "INFO" => some 20
  | "DEBUG" => some 10
  | "NOTSET" => some 0
  | _ => none

/-- Resulting logger configuration: the level set on the stream handler, the
level set on the root logger, and the propagate flag. -/
structure LoggerConfig where
  handlerLevel : Nat
  loggerLevel : Nat
  propagate : Bool
deriving Repr, DecidableEq

/-- Upcasing as str.upper() performs it on the ASCII level names: each
character mapped to its upper-case form. -/
def pyUpper (s : String) : String :=
  ⟨s.data.map Char.toUpper⟩

/-- setup_logging (src/app/observability.py lines 27-55). envLogLevel is the
value of the LOG_LEVEL environment variable, none when unset. The code reads
os.getenv("LOG_LEVEL", "INFO").upper() and applies
getattr(logging, log_level, logging.INFO) to both the handler and the root
logger, then sets propagate to False. -/
def setup_logging (envLogLevel : Option String) : LoggerConfig :=
  let log_level := pyUpper (envLogLevel.getD "INFO")
  let level := (levelValue log_level).getD 20
  ⟨level, level, false⟩

/-- C1: a create-item request that hits a persistence failure answers a
generic 500 server error, the rollback leaves the store exactly as it was
(no incomplete record committed), and a subsequent get for the id that
would have been assigned returns the 404 not-found response. -/
theorem create_item_failure_rolls_back (item : ItemCreate) (db : DB) (hwf : db.wf) :
    (create_item item db true).1 = Response.httpError 500 "Failed to create item" ∧
    (create_item item db true).2 = db ∧
    read_item db.nextId (create_item item db true).2 false =
      Response.httpError 404 "Item not found" := by
  refine ⟨rfl, rfl, ?_⟩
  have hfind : db.find db.nextId = none := by
    simp only [DB.find, List.find?_eq_none]
    intro it hit
    simp only [beq_iff_eq]
    exact ne_of_lt (hwf it hit)
  simp [create_item, read_item, hfind]

/-- C1 witness at a concrete store holding one item. -/
theorem create_item_failure_rolls_back_witness :
    (create_item ⟨"n", "d"⟩ ⟨[⟨1, "a", "b"⟩], 2⟩ true).1 =
      Response.httpError 500 "Failed to create item" ∧
    (create_item ⟨"n", "d"⟩ ⟨[⟨1, "a", "b"⟩], 2⟩ true).2 = ⟨[⟨1, "a", "b"⟩], 2⟩ ∧
    read_item 2 (create_item ⟨"n", "d"⟩ ⟨[⟨1, "a", "b"⟩], 2⟩ true).2 false =
      Response.httpError 404 "Item not found" :=
  create_item_failure_rolls_back ⟨"n", "d"⟩ ⟨[⟨1, "a", "b"⟩], 2⟩ (by simp [DB.wf])

/-- C2: with the database unreachable on every attempt, startup makes exactly
max_retries = 5 create_tables attempts, sleeps retry_delay = 5 seconds after
each of the 4 failed attempts that are followed by another, and then
propagates the OperationalError, halting startup; and whenever the first
success happens at attempt k, the loop stops there with k + 1 attempts and
startup proceeds to Ready. -/
theorem startup_event_retry_spec (outcome : Nat → AttemptOutcome) :
    max_retries = 5 ∧ retry_delay = 5 ∧
    ((∀ i, i < max_retries → outcome i = AttemptOutcome.operationalError) →
      startup_event outcome =
        ⟨max_retries, max_retries - 1, StartupState.FailedOperational⟩) ∧
    (∀ k, k < max_retries →
      (∀ i, i < k → outcome i = AttemptOutcome.operationalError) →
      outcome k = AttemptOutcome.success →
      startup_event outcome = ⟨k + 1, k, StartupState.Ready⟩) := by
  refine ⟨rfl, rfl, ?_, ?_⟩
  · intro h
    have h0 := h 0 (by norm_num [max_retries])
    have h1 := h 1 (by norm_num [max_retries])
    have h2 := h 2 (by norm_num [max_retries])
    have h3 := h 3 (by norm_num [max_retries])
    have h4 := h 4 (by norm_num [max_retries])
    simp [startup_event, startupGo, max_retries, h0, h1, h2, h3, h4]
  · intro k hk hfail hk_succ
    have hk5 : k < 5 := by simpa [max_retries] using hk
    interval_cases k
    · simp [startup_event, startupGo, max_retries, hk_succ]
    · have h0 := hfail 0 (by norm_num)
      simp [startup_event, startupGo, max_retries, h0, hk_succ]
    · have h0 := hfail 0 (by norm_num)
      have h1 := hfail 1 (by norm_num)
      simp [startup_event, startupGo, max_retries, h0, h1, hk_succ]
    · have h0 := hfail 0 (by norm_num)
      have h1 := hfail 1 (by norm_num)
      have h2 := hfail 2 (by norm_num)
      simp [startup_event, startupGo, max_retries, h0, h1, h2, hk_succ]
    · have h0 := hfail 0 (by norm_num)
      have h1 := hfail 1 (by norm_num)
      have h2 := hfail 2 (by norm_num)
      have h3 := hfail 3 (by norm_num)
      simp [startup_event, startupGo, max_retries, h0, h1, h2, h3, hk_succ]

/-- C2 witness: the always-unreachable database gives 5 attempts, 4 sleeps
and the Failed state. -/
theorem startup_event_retry_spec_witness :
    startup_event (fun _ => AttemptOutcome.operationalError) =
      ⟨5, 4, StartupState.FailedOperational⟩ :=
  (startup_event_retry_spec (fun _ => AttemptOutcome.operationalError)).2.2.1
    (fun _ _ => rfl)

/-- C3: a get-item request returns the persisted Item with status 200 when
one with that id exists, the 404 not-found response when none does, and the
generic 500 server error when the lookup itself fails. -/
theorem read_item_spec (item_id : Int) (db : DB) :
    (∀ it, db.find item_id = some it →
      read_item item_id db false = Response.ok it ∧
      (read_item item_id db false).statusCode = 200) ∧
    (db.find item_id = none →
      read_item item_id db false = Response.httpError 404 "Item not found") ∧
    read_item item_id db true = Response.httpError 500 "Failed to retrieve item" := by
  refine ⟨?_, ?_, rfl⟩
  · intro it hit
    simp [read_item, hit, Response.statusCode]
  · intro hnone
    simp [read_item, hnone]

/-- C3 witness: a concrete found lookup, absent lookup, and failing lookup. -/
theorem read_item_spec_witness :
    read_item 1 ⟨[⟨1, "a", "b"⟩], 2⟩ false = Response.ok ⟨1, "a", "b"⟩ ∧
    read_item 7 ⟨[⟨1, "a", "b"⟩], 2⟩ false = Response.httpError 404 "Item not found" ∧
    read_item 1 ⟨[⟨1, "a", "b"⟩], 2⟩ true =
      Response.httpError 500 "Failed to retrieve item" :=
  ⟨((read_item_spec 1 ⟨[⟨1, "a", "b"⟩], 2⟩).1 ⟨1, "a", "b"⟩ (by decide)).1,
   (read_item_spec 7 ⟨[⟨1, "a", "b"⟩], 2⟩).2.1 (by decide),
   (read_item_spec 1 ⟨[⟨1, "a", "b"⟩], 2⟩).2.2⟩

/-- C4: a create-item request that persists successfully answers with
status 200, carrying the submitted name and description unchanged together
with a newly assigned id distinct from every already-persisted id, and the
created record is persisted. -/
theorem create_item_success_spec (item : ItemCreate) (db : DB) (hwf : db.wf) :
    ∃ created : Item,
      (create_item item db false).1 = Response.ok created ∧
      (create_item item db false).1.statusCode = 200 ∧
      created.name = item.name ∧
      created.description = item.description ∧
      (∀ old ∈ db.items, old.id ≠ created.id) ∧
      created ∈ (create_item item db false).2.items := by
  refine ⟨⟨db.nextId, item.name, item.description⟩, rfl, rfl, rfl, rfl, ?_, ?_⟩
  · intro old hold
    exact ne_of_lt (hwf old hold)
  · simp [create_item, DB.insert]

/-- C4 witness: a concrete successful create. -/
theorem create_item_success_spec_witness :
    ∃ created : Item,
      (create_item ⟨"n", "d"⟩ ⟨[⟨1, "a", "b"⟩], 2⟩ false).1 = Response.ok created ∧
      (create_item ⟨"n", "d"⟩ ⟨[⟨1, "a", "b"⟩], 2⟩ false).1.statusCode = 200 ∧
      created.name = "n" ∧
      created.description = "d" ∧
      (∀ old ∈ (⟨[⟨1, "a", "b"⟩], 2⟩ : DB).items, old.id ≠ created.id) ∧
      created ∈ (create_item ⟨"n", "d"⟩ ⟨[⟨1, "a", "b"⟩], 2⟩ false).2.items :=
  create_item_success_spec ⟨"n", "d"⟩ ⟨[⟨1, "a", "b"⟩], 2⟩ (by simp [DB.wf])

/-- C5: a create request whose body is missing the required name field is
answered with a 422 response whose detail list names the missing field, and
the store is untouched, so persistence is never reached. -/
theorem post_items_missing_name_rejected (body : RawBody) (db : DB)
    (persistFails : Bool) (h : body.name = none) :
    (post_items body db persistFails).1.statusCode = 422 ∧
    (∃ errs, (post_items body db persistFails).1 = Response.validationError errs ∧
      "name: field required" ∈ errs) ∧
    (post_items body db persistFails).2 = db := by
  obtain ⟨n, d⟩ := body
  cases h
  cases d <;>
    simp [post_items, validateItemCreate, fieldErrors, Response.statusCode]

/-- C5 witness: a concrete body with description present and name missing. -/
theorem post_items_missing_name_rejected_witness :
    (post_items ⟨none, some "d"⟩ ⟨[], 1⟩ false).1.statusCode = 422 ∧
    (∃ errs, (post_items ⟨none, some "d"⟩ ⟨[], 1⟩ false).1 =
        Response.validationError errs ∧ "name: field required" ∈ errs) ∧
    (post_items ⟨none, some "d"⟩ ⟨[], 1⟩ false).2 = ⟨[], 1⟩ :=
  post_items_missing_name_rejected ⟨none, some "d"⟩ ⟨[], 1⟩ false rfl

/-- C6: when call_next returns a response, the middleware increments the
http_requests_total counter by exactly one. -/
theorem log_requests_counts_completed (m : Metrics) (status : Nat) (d : Nat) :
    ((log_requests m (CallNextResult.response status) d).1).requestCount =
      m.requestCount + 1 := rfl

/-- C7: for both the success path and the failure path of the handler, the
per-request session trace produced by get_db ends with the close event, and
closes exactly once. -/
theorem get_db_closes_on_both_paths (outcome : HandlerOutcome) :
    (get_db outcome).getLast? = some SessionEvent.closed ∧
    (get_db outcome).count SessionEvent.closed = 1 ∧
    (get_db outcome).head? = some SessionEvent.opened := by
  cases outcome <;> exact ⟨rfl, rfl, rfl⟩

/-- C8: a LOG_LEVEL value naming a logging level sets both the handler level
and the root logger level to that value, and an unset LOG_LEVEL defaults
both to INFO (20). -/
theorem setup_logging_level_spec (env : Option String) :
    (env = none →
      (setup_logging env).handlerLevel = 20 ∧ (setup_logging env).loggerLevel = 20) ∧
    (∀ s v, env = some s → levelValue (pyUpper s) = some v →
      (setup_logging env).handlerLevel = v ∧ (setup_logging env).loggerLevel = v) := by
  constructor
  · rintro rfl
    exact ⟨by decide, by decide⟩
  · rintro s v rfl hv
    simp [setup_logging, hv]

/-- C8 witness: unset defaults to INFO, and a lowercase debug value sets
level 10. -/
theorem setup_logging_level_spec_witness :
    ((setup_logging none).handlerLevel = 20 ∧ (setup_logging none).loggerLevel = 20) ∧
    (setup_logging (some "debug")).handlerLevel = 10 ∧
    (setup_logging (some "debug")).loggerLevel = 10 :=
  ⟨(setup_logging_level_spec none).1 rfl,
   (setup_logging_level_spec (some "debug")).2 "debug" 10 rfl (by decide)⟩

/-- C9: an exception other than OperationalError on the first create_tables
attempt propagates at once: one attempt, no sleep, Failed with the other
error. -/
theorem startup_event_other_error_no_retry (outcome : Nat → AttemptOutcome)
    (h : outcome 0 = AttemptOutcome.otherError) :
    startup_event outcome = ⟨1, 0, StartupState.FailedOther⟩ := by
  simp [startup_event, startupGo, max_retries, h]

/-- C9 witness: a first attempt raising a non-connectivity error. -/
theorem startup_event_other_error_no_retry_witness :
    startup_event (fun _ => AttemptOutcome.otherError) =
      ⟨1, 0, StartupState.FailedOther⟩ :=
  startup_event_other_error_no_retry (fun _ => AttemptOutcome.otherError) rfl

/-- C10: when call_next raises, the middleware leaves the request counter and
the latency histogram untouched, returns no response, and leaves the
in-progress gauge incremented by one with no decrement, overstating
in-flight requests by one after the request ends. -/
theorem log_requests_raise_leaks_gauge (m : Metrics) (d : Nat) :
    (log_requests m CallNextResult.raises d).1.requestCount = m.requestCount ∧
    (log_requests m CallNextResult.raises d).1.latency = m.latency ∧
    (log_requests m CallNextResult.raises d).1.inProgress = m.inProgress + 1 ∧
    (log_requests m CallNextResult.raises d).2 = none :=
  ⟨rfl, rfl, rfl, rfl⟩

end App
